import Mathlib

/-!
Shallow embedding of the bank-assignment workflow (BankAssignment component):
the record data model, the random unassigned-record selector
(fetchUnassignedBank), the submission handler (onSubmit) with its zod-style
phone-number validation and conditional business rules, and the cancellation
handler (handleCancel).  Network effects (axios.put) are modelled by recording
the issued PUT calls and by a Boolean oracle saying whether the call succeeds;
Math.random() is modelled by a rational q with 0 <= q < 1.
-/

namespace BankVerification

/-- One bank-branch row of the external store, after the Bank interface in
types/bank.ts.  Optional string fields are modelled as strings where the empty
string stands for an absent value (JavaScript treats both as falsy in the
checks the component performs).  The phoneResponse column is part of the
runtime row because submissions write it via the object spread. -/
structure Bank where
  id : Nat
  ufi : Nat
  bankName : String
  ifscCode : String
  branchName : String
  address : String
  userName : String
  phoneNumber : String
  phoneResponse : String
  response : String
  updateAddress : String
  updatedBranchName : String
  remarks : String
deriving Repr, DecidableEq

/-- A PUT request issued against the record store: target row id and the full
body object sent as the bank field. -/
structure PutCall where
  id : Nat
  body : Bank
deriving Repr, DecidableEq

/-- The filter predicate of fetchUnassignedBank: a bank passes when
its userName field is falsy, i.e. empty (or absent). -/
def isUnassigned (b : Bank) : Bool := b.userName == ""

/-- Math.floor of Math.random() times the list length, with the random draw
q in the unit interval modelled as a rational. -/
def randomIndex (q : ℚ) (n : Nat) : Nat := Nat.floor (q * (n : ℚ))

/-- The record picked by fetchUnassignedBank: index randomIndex into the
filtered unassigned sublist (array indexing yields none when out of range,
mirroring a JavaScript undefined access). -/
def selectedBank (banks : List Bank) (q : ℚ) : Option Bank :=
  let unassignedBanks := banks.filter isUnassigned
  unassignedBanks[randomIndex q unassignedBanks.length]?

/-- The externally visible outcome of one fetchUnassignedBank run: the value
passed to setCurrentBank, the value passed to setError, and the PUT calls that
were issued (attempted, whether or not they succeeded). -/
structure FetchState where
  currentBank : Option Bank
  error : Option String
  puts : List PutCall
deriving Repr, DecidableEq

/-- fetchUnassignedBank from BankAssignment: filter to unassigned banks; if
some exist, pick one at the random index, attempt the claim PUT with the
record spread plus the caller userName, and on success present the pre-claim
record via setCurrentBank; a rejected PUT throws at the await, so control
jumps to the catch block which sets the fetch-failure error and never calls
setCurrentBank.  If no unassigned bank exists, set the no-availability error
and issue no PUT.  The none result corresponds to an out-of-range array
access (JavaScript undefined), proved unreachable for 0 <= q < 1. -/
def fetchUnassignedBank (banks : List Bank) (userName : String) (q : ℚ)
    (claimSucceeds : Bool) : Option FetchState :=
  let unassignedBanks := banks.filter isUnassigned
  if 0 < unassignedBanks.length then
    match unassignedBanks[randomIndex q unassignedBanks.length]? with
    | none => none
    | some randomBank =>
      let put : PutCall := ⟨randomBank.id, { randomBank with userName := userName }⟩
      if claimSucceeds then
        some ⟨some randomBank, none, [put]⟩
      else
        some ⟨none, some "Failed to fetch bank details. Please try again.", [put]⟩
  else
    some ⟨none, some "No unassigned banks available at the moment.", []⟩

/-- The phoneResponse enumeration of formSchema. -/
inductive PhoneResponse where
  | toll_free
  | registered_only
  | invalid_number
  | no_response
  | switched_off
  | number_not_found
deriving Repr, DecidableEq

/-- The string value the form submits for a phoneResponse choice. -/
def PhoneResponse.toStr : PhoneResponse → String
  | .toll_free => "toll_free"
  | .registered_only => "registered_only"
  | .invalid_number => "invalid_number"
  | .no_response => "no_response"
  | .switched_off => "switched_off"
  | .number_not_found => "number_not_found"

/-- The optional response enumeration of formSchema. -/
inductive ResponseType where
  | address_change
  | branch_name_change
  | no_change_in_address
  | bank_shift
deriving Repr, DecidableEq

/-- The string value the form submits for a response choice. -/
def ResponseType.toStr : ResponseType → String
  | .address_change => "address_change"
  | .branch_name_change => "branch_name_change"
  | .no_change_in_address => "no_change_in_address"
  | .bank_shift => "bank_shift"

/-- The values object handed to onSubmit after the zod schema has parsed the
form: phoneNumber and phoneResponse are required, response and the two update
fields are optional, remarks is transformed to the empty string when absent. -/
structure FormValues where
  phoneNumber : String
  phoneResponse : PhoneResponse
  response : Option ResponseType
  updateAddress : Option String
  updatedBranchName : Option String
  remarks : String
deriving Repr, DecidableEq

/-- JavaScript falsiness of an optional string field of the parsed values:
absent (undefined) and the empty string are both falsy. -/
def optStrFalsy (o : Option String) : Bool :=
  match o with
  | none => true
  | some s => s == ""

/-- The zod rule min 10 on phoneNumber. -/
def phoneMinRule (s : String) : Bool := 10 ≤ s.length

/-- The zod rule max 15 on phoneNumber. -/
def phoneMaxRule (s : String) : Bool := s.length ≤ 15

/-- The zod regex rule on phoneNumber: one or more characters, all digits. -/
def phoneDigitsRule (s : String) : Bool := 0 < s.length && s.data.all Char.isDigit

/-- The zod refine rule on phoneNumber: must not start with the digit 0. -/
def phoneNoLeadingZeroRule (s : String) : Bool := !(s.data.head? == some '0')

/-- A phoneNumber string passes the formSchema chain iff every rule of the
chain accepts it. -/
def phoneNumberValid (s : String) : Bool :=
  phoneMinRule s && phoneMaxRule s && phoneDigitsRule s && phoneNoLeadingZeroRule s

/-- The body of the submission PUT: the object spread of the held record with
the parsed form values.  Optional value fields that the caller left unset are
absent from the serialized body, so the store keeps the row's previous cell
value for them; set fields overwrite.  The values object carries no userName
key, so userName always survives from the held (pre-claim) record snapshot. -/
def submitBody (bank : Bank) (v : FormValues) : Bank :=
  { bank with
    phoneNumber := v.phoneNumber
    phoneResponse := v.phoneResponse.toStr
    response := match v.response with
      | some r => r.toStr
      | none => bank.response
    updateAddress := v.updateAddress.getD bank.updateAddress
    updatedBranchName := v.updatedBranchName.getD bank.updatedBranchName
    remarks := v.remarks }

/-- Outcome of one onSubmit run after the zod schema has already passed. -/
inductive SubmitResult where
  | noBank
  | rejected (errMsg : String)
  | submitted (put : PutCall)
  | submitFailed (put : PutCall) (errMsg : String)
deriving Repr, DecidableEq

/-- The successfulResponses array of onSubmit. -/
def successfulResponses : List PhoneResponse := [.toll_free, .registered_only]

/-- onSubmit from BankAssignment: guard on a held record, then the four
business-rule checks in source order (each sets an error and returns before
any PUT), then the PUT with the spread-merged body; a rejected PUT is caught
and surfaced as the update-failure error. -/
def onSubmit (currentBank : Option Bank) (values : FormValues)
    (putSucceeds : Bool) : SubmitResult :=
  match currentBank with
  | none => .noBank
  | some bank =>
    if values.phoneResponse ∈ successfulResponses ∧ values.response = none then
      .rejected "Response type is required for successful calls"
    else if values.response = some .address_change ∧ optStrFalsy values.updateAddress then
      .rejected "Updated address is required for address change"
    else if values.response = some .branch_name_change ∧ optStrFalsy values.updatedBranchName then
      .rejected "Updated branch name is required for branch name change"
    else if values.response = some .bank_shift ∧ optStrFalsy values.updateAddress then
      .rejected "Updated address is required for bank shift"
    else
      let put : PutCall := ⟨bank.id, submitBody bank values⟩
      if putSucceeds then .submitted put
      else .submitFailed put "Failed to update bank information. Please try again."

/-- The PUT calls attempted during an onSubmit run. -/
def submitPuts : SubmitResult → List PutCall
  | .noBank => []
  | .rejected _ => []
  | .submitted put => [put]
  | .submitFailed put _ => [put]

/-- The body of the cancellation PUT: the held record with the assignment
field and every outcome field reset to the empty string. -/
def cancelBody (bank : Bank) : Bank :=
  { bank with
    userName := ""
    phoneNumber := ""
    response := ""
    updateAddress := ""
    updatedBranchName := ""
    remarks := "" }

/-- The externally visible outcome of one handleCancel run: the PUT calls
attempted, the record held afterwards, whether the draft was reset and the
next fetch triggered, and the surfaced error. -/
structure CancelOutcome where
  puts : List PutCall
  currentBankAfter : Option Bank
  formWasReset : Bool
  fetchTriggered : Bool
  error : Option String
deriving Repr, DecidableEq

/-- handleCancel from BankAssignment: with a held record, attempt the reset
PUT; on success wait the settling delay, clear the record, reset the form and
fetch the next assignment; a rejected PUT throws at the await, so the catch
block surfaces the cancel-failure error and the record stays held. -/
def handleCancel (currentBank : Option Bank) (putSucceeds : Bool) : CancelOutcome :=
  match currentBank with
  | none => ⟨[], none, false, false, none⟩
  | some bank =>
    let put : PutCall := ⟨bank.id, cancelBody bank⟩
    if putSucceeds then ⟨[put], none, true, true, none⟩
    else ⟨[put], some bank, false, false, some "Failed to cancel assignment. Please try again."⟩

/-! Concrete fixtures used by witnesses and counterexamples. -/

/-- A sample unassigned row. -/
def bankEx : Bank :=
  { id := 1, ufi := 101, bankName := "State Bank", ifscCode := "SBIN0000001",
    branchName := "Main Branch", address := "1 Main Road", userName := "",
    phoneNumber := "", phoneResponse := "", response := "", updateAddress := "",
    updatedBranchName := "", remarks := "" }

/-- A sample row already claimed by another caller. -/
def bankTaken : Bank := { bankEx with id := 2, ufi := 102, userName := "Bob" }

/-- Parsed values of a fully valid draft for an unsuccessful call. -/
def valuesEx : FormValues := ⟨"9876543210", .no_response, none, none, none, ""⟩

/-- Parsed values with a successful phone response but no response type chosen. -/
def valuesNoResp : FormValues := ⟨"9876543210", .toll_free, none, none, none, ""⟩

/-- Parsed values choosing address_change but leaving the updated address unset. -/
def valuesAddrMissing : FormValues :=
  ⟨"9876543210", .toll_free, some .address_change, none, none, ""⟩

/-- Parsed values of a fully valid draft carrying an address change. -/
def valuesFull : FormValues :=
  ⟨"9876543210", .toll_free, some .address_change, some "12 Market Street Pune", none, "ok"⟩

/-! Helper lemmas about the selector. -/

theorem randomIndex_lt (q : ℚ) (n : Nat) (hq0 : 0 ≤ q) (hq1 : q < 1) (hn : 0 < n) :
    randomIndex q n < n := by
  unfold randomIndex
  have hn' : (0 : ℚ) < (n : ℚ) := by exact_mod_cast hn
  have hlt : q * (n : ℚ) < (n : ℚ) := by
    calc q * (n : ℚ) < 1 * (n : ℚ) := mul_lt_mul_of_pos_right hq1 hn'
    _ = (n : ℚ) := one_mul _
  have h0 : (0 : ℚ) ≤ q * (n : ℚ) := mul_nonneg hq0 hn'.le
  rw [Nat.floor_lt h0]
  exact_mod_cast hlt

theorem randomIndex_zero (n : Nat) : randomIndex 0 n = 0 := by
  simp [randomIndex]

theorem selectedBank_isSome (banks : List Bank) (q : ℚ) (hq0 : 0 ≤ q) (hq1 : q < 1)
    (hne : banks.filter isUnassigned ≠ []) : (selectedBank banks q).isSome = true := by
  unfold selectedBank
  have hlen : 0 < (banks.filter isUnassigned).length := List.length_pos.mpr hne
  have hidx := randomIndex_lt q (banks.filter isUnassigned).length hq0 hq1 hlen
  simp [List.getElem?_eq_getElem hidx]

theorem selectedBank_mem (banks : List Bank) (q : ℚ) (b : Bank)
    (hb : selectedBank banks q = some b) : b ∈ banks ∧ isUnassigned b = true := by
  unfold selectedBank at hb
  have hmem : b ∈ banks.filter isUnassigned := List.getElem?_mem hb
  exact ⟨(List.mem_filter.mp hmem).1, (List.mem_filter.mp hmem).2⟩

theorem fetchUnassignedBank_of_selected (banks : List Bank) (userName : String) (q : ℚ)
    (ps : Bool) (b : Bank) (hb : selectedBank banks q = some b) :
    fetchUnassignedBank banks userName q ps =
      some (if ps then ⟨some b, none, [⟨b.id, { b with userName := userName }⟩]⟩
        else ⟨none, some "Failed to fetch bank details. Please try again.",
          [⟨b.id, { b with userName := userName }⟩]⟩) := by
  unfold selectedBank at hb
  have hlen : 0 < (banks.filter isUnassigned).length := by
    have := (List.getElem?_eq_some_iff.mp hb).1
    omega
  unfold fetchUnassignedBank
  rw [if_pos hlen, hb]
  cases ps <;> simp

theorem selectedBank_exists (banks : List Bank) (q : ℚ) (hq0 : 0 ≤ q) (hq1 : q < 1)
    (hne : banks.filter isUnassigned ≠ []) :
    ∃ b, selectedBank banks q = some b ∧ b ∈ banks ∧ isUnassigned b = true := by
  rcases Option.isSome_iff_exists.mp (selectedBank_isSome banks q hq0 hq1 hne) with ⟨b, hb⟩
  exact ⟨b, hb, selectedBank_mem banks q b hb⟩

theorem fetchUnassignedBank_empty (banks : List Bank) (userName : String) (q : ℚ) (ps : Bool)
    (h : banks.filter isUnassigned = []) :
    fetchUnassignedBank banks userName q ps =
      some ⟨none, some "No unassigned banks available at the moment.", []⟩ := by
  simp [fetchUnassignedBank, h]

theorem fetchUnassignedBank_none_of_selected_none (banks : List Bank) (userName : String)
    (q : ℚ) (ps : Bool) (hne : banks.filter isUnassigned ≠ [])
    (hsel : selectedBank banks q = none) :
    fetchUnassignedBank banks userName q ps = none := by
  have hlen : 0 < (banks.filter isUnassigned).length := List.length_pos.mpr hne
  unfold selectedBank at hsel
  simp only [fetchUnassignedBank]
  rw [if_pos hlen, hsel]

theorem fetchUnassignedBank_currentBank (banks : List Bank) (userName : String) (q : ℚ)
    (ps : Bool) (st : FetchState) (b : Bank)
    (hfetch : fetchUnassignedBank banks userName q ps = some st)
    (hcb : st.currentBank = some b) : b ∈ banks ∧ isUnassigned b = true := by
  by_cases hemp : banks.filter isUnassigned = []
  · rw [fetchUnassignedBank_empty banks userName q ps hemp] at hfetch
    obtain rfl : st = ⟨none, some "No unassigned banks available at the moment.", []⟩ :=
      (Option.some.injEq _ _).mp hfetch.symm
    simp at hcb
  · cases hsel : selectedBank banks q with
    | none =>
      rw [fetchUnassignedBank_none_of_selected_none banks userName q ps hemp hsel] at hfetch
      simp at hfetch
    | some rb =>
      rw [fetchUnassignedBank_of_selected banks userName q ps rb hsel] at hfetch
      cases ps
      · obtain rfl : st = _ := (Option.some.injEq _ _).mp hfetch.symm
        simp at hcb
      · obtain rfl : st = _ := (Option.some.injEq _ _).mp hfetch.symm
        have hm := selectedBank_mem banks q rb hsel
        simp at hcb
        simpa [← hcb] using hm

theorem onSubmit_submitted_eq (bank : Bank) (values : FormValues) (ps : Bool) (put : PutCall)
    (hs : onSubmit (some bank) values ps = .submitted put) :
    ps = true ∧ put = ⟨bank.id, submitBody bank values⟩ := by
  unfold onSubmit at hs
  split_ifs at hs
  cases ps <;> simp_all

/-! Claim theorems. -/

/-- Claim C1, counterexample.  The claim states that fetchUnassignedBank calls
setCurrentBank with the chosen record regardless of whether the claim update
succeeded or failed.  On the concrete one-record store with a failing update,
the claim PUT is attempted but the chosen record is not presented: the await
throws into the catch block, which sets the fetch-failure error and leaves
currentBank untouched. -/
theorem c1_update_failure_counterexample :
    (fetchUnassignedBank [bankEx] "Alice" 0 false).map FetchState.puts =
      some [⟨1, { bankEx with userName := "Alice" }⟩] ∧
    (fetchUnassignedBank [bankEx] "Alice" 0 false).map FetchState.currentBank = some none ∧
    (fetchUnassignedBank [bankEx] "Alice" 0 false).map FetchState.error =
      some (some "Failed to fetch bank details. Please try again.") := by
  have h : fetchUnassignedBank [bankEx] "Alice" 0 false =
      some ⟨none, some "Failed to fetch bank details. Please try again.",
        [⟨1, { bankEx with userName := "Alice" }⟩]⟩ := by
    simp [fetchUnassignedBank, randomIndex_zero, isUnassigned, bankEx]
  rw [h]
  exact ⟨rfl, rfl, rfl⟩

/-- Claim C1, amended.  Whenever the unassigned subset is non-empty,
fetchUnassignedBank attempts the claim PUT for the chosen record in both
outcomes; when the update succeeds the chosen record (pre-claim snapshot) is
presented via setCurrentBank, and when the update fails the catch handler
sets the fetch-failure error instead and no record is presented. -/
theorem c1_claim_failure_soft_error (banks : List Bank) (userName : String) (q : ℚ)
    (hq0 : 0 ≤ q) (hq1 : q < 1) (hne : banks.filter isUnassigned ≠ []) :
    ∃ b, selectedBank banks q = some b ∧
      fetchUnassignedBank banks userName q true =
        some ⟨some b, none, [⟨b.id, { b with userName := userName }⟩]⟩ ∧
      fetchUnassignedBank banks userName q false =
        some ⟨none, some "Failed to fetch bank details. Please try again.",
          [⟨b.id, { b with userName := userName }⟩]⟩ := by
  rcases selectedBank_exists banks q hq0 hq1 hne with ⟨b, hb, -, -⟩
  refine ⟨b, hb, ?_, ?_⟩
  · simpa using fetchUnassignedBank_of_selected banks userName q true b hb
  · simpa using fetchUnassignedBank_of_selected banks userName q false b hb

/-- Claim C1, witness for the amended theorem at a concrete store. -/
theorem c1_claim_failure_soft_error_witness :
    ∃ b, selectedBank [bankEx] (0 : ℚ) = some b ∧
      fetchUnassignedBank [bankEx] "Alice" 0 true =
        some ⟨some b, none, [⟨b.id, { b with userName := "Alice" }⟩]⟩ ∧
      fetchUnassignedBank [bankEx] "Alice" 0 false =
        some ⟨none, some "Failed to fetch bank details. Please try again.",
          [⟨b.id, { b with userName := "Alice" }⟩]⟩ :=
  c1_claim_failure_soft_error [bankEx] "Alice" 0 (by norm_num) (by norm_num) (by decide)

/-- Claim C2: for a record whose pre-claim userName is empty, the body of a
successful submission PUT is the spread-merge of the pre-claim snapshot with
the draft values; the draft has no userName field, so the submitted body
carries the empty userName and the record counts as available again. -/
theorem c2_submission_reopens_record (bank : Bank) (hb : bank.userName = "")
    (values : FormValues) (ps : Bool) (put : PutCall)
    (hs : onSubmit (some bank) values ps = .submitted put) :
    put.body = submitBody bank values ∧ put.body.userName = "" ∧
    isUnassigned put.body = true := by
  obtain ⟨-, rfl⟩ := onSubmit_submitted_eq bank values ps put hs
  refine ⟨rfl, ?_, ?_⟩
  · simpa [submitBody] using hb
  · simp [isUnassigned, submitBody, hb]

/-- Claim C2, witness at a concrete record and valid draft. -/
theorem c2_submission_reopens_record_witness :
    (⟨bankEx.id, submitBody bankEx valuesEx⟩ : PutCall).body = submitBody bankEx valuesEx ∧
    (⟨bankEx.id, submitBody bankEx valuesEx⟩ : PutCall).body.userName = "" ∧
    isUnassigned (⟨bankEx.id, submitBody bankEx valuesEx⟩ : PutCall).body = true :=
  c2_submission_reopens_record bankEx rfl valuesEx true
    ⟨bankEx.id, submitBody bankEx valuesEx⟩ (by decide)

/-- Claim C3: when at least one record has an empty assignment field, the
selector presents a record drawn from the empty-assignment subset, and every
record it can ever present has an empty assignment field and belongs to the
fetched set. -/
theorem c3_selection_from_unassigned_subset (banks : List Bank) (userName : String)
    (q : ℚ) (hq0 : 0 ≤ q) (hq1 : q < 1)
    (hne : banks.filter isUnassigned ≠ []) :
    (∃ b st, fetchUnassignedBank banks userName q true = some st ∧
      st.currentBank = some b ∧ b ∈ banks ∧ isUnassigned b = true) ∧
    (∀ (ps : Bool) (st : FetchState) (b : Bank),
      fetchUnassignedBank banks userName q ps = some st →
      st.currentBank = some b → b ∈ banks ∧ isUnassigned b = true) := by
  constructor
  · rcases selectedBank_exists banks q hq0 hq1 hne with ⟨b, hb, hmem, hun⟩
    refine ⟨b, _, fetchUnassignedBank_of_selected banks userName q true b hb, ?_, hmem, hun⟩
    simp
  · intro ps st b hfetch hcb
    exact fetchUnassignedBank_currentBank banks userName q ps st b hfetch hcb

/-- Claim C3, witness on a two-record store with one claimed record. -/
theorem c3_selection_from_unassigned_subset_witness :
    (∃ b st, fetchUnassignedBank [bankTaken, bankEx] "Alice" 0 true = some st ∧
      st.currentBank = some b ∧ b ∈ [bankTaken, bankEx] ∧ isUnassigned b = true) ∧
    (∀ (ps : Bool) (st : FetchState) (b : Bank),
      fetchUnassignedBank [bankTaken, bankEx] "Alice" 0 ps = some st →
      st.currentBank = some b → b ∈ [bankTaken, bankEx] ∧ isUnassigned b = true) :=
  c3_selection_from_unassigned_subset [bankTaken, bankEx] "Alice" 0 (by norm_num)
    (by norm_num) (by decide)

/-- Claim C4: when no record has an empty assignment field, the selector sets
the no-availability message, presents nothing, does not fail, and issues no
update call. -/
theorem c4_no_availability (banks : List Bank) (userName : String) (q : ℚ) (ps : Bool)
    (h : ∀ b ∈ banks, isUnassigned b = false) :
    fetchUnassignedBank banks userName q ps =
      some ⟨none, some "No unassigned banks available at the moment.", []⟩ ∧
    (fetchUnassignedBank banks userName q ps).map FetchState.puts = some [] := by
  have hfil : banks.filter isUnassigned = [] := by
    apply List.filter_eq_nil_iff.mpr
    intro a ha
    simp [h a ha]
  refine ⟨fetchUnassignedBank_empty banks userName q ps hfil, ?_⟩
  rw [fetchUnassignedBank_empty banks userName q ps hfil]
  rfl

/-- Claim C4, witness on a store whose only record is already claimed. -/
theorem c4_no_availability_witness :
    fetchUnassignedBank [bankTaken] "Alice" 0 true =
      some ⟨none, some "No unassigned banks available at the moment.", []⟩ ∧
    (fetchUnassignedBank [bankTaken] "Alice" 0 true).map FetchState.puts = some [] :=
  c4_no_availability [bankTaken] "Alice" 0 true (by decide)

/-- Claim C5: a draft whose phoneResponse is toll_free or registered_only with
no response type chosen is rejected with the response-required error before
any store call, and no update call is issued. -/
theorem c5_response_required_rejection (values : FormValues) (bank : Bank) (ps : Bool)
    (hpr : values.phoneResponse = .toll_free ∨ values.phoneResponse = .registered_only)
    (hresp : values.response = none) :
    onSubmit (some bank) values ps =
      .rejected "Response type is required for successful calls" ∧
    submitPuts (onSubmit (some bank) values ps) = [] := by
  have hc : values.phoneResponse ∈ successfulResponses := by
    rcases hpr with h | h <;> simp [successfulResponses, h]
  have hrej : onSubmit (some bank) values ps =
      .rejected "Response type is required for successful calls" := by
    simp only [onSubmit]
    rw [if_pos ⟨hc, hresp⟩]
  exact ⟨hrej, by rw [hrej]; rfl⟩

/-- Claim C5, witness at a concrete toll_free draft with no response type. -/
theorem c5_response_required_rejection_witness :
    onSubmit (some bankEx) valuesNoResp true =
      .rejected "Response type is required for successful calls" ∧
    submitPuts (onSubmit (some bankEx) valuesNoResp true) = [] :=
  c5_response_required_rejection valuesNoResp bankEx true (Or.inl rfl) rfl

/-- Claim C6: after the schema passes, the conditional business-rule checks
run in source order; address_change with an empty updated address,
branch_name_change with an empty updated branch name, and bank_shift with an
empty updated address are each rejected with their validation error, and no
update call is issued. -/
theorem c6_conditional_field_rejections (values : FormValues) (bank : Bank) (ps : Bool) :
    (values.response = some .address_change → optStrFalsy values.updateAddress = true →
      onSubmit (some bank) values ps =
        .rejected "Updated address is required for address change" ∧
      submitPuts (onSubmit (some bank) values ps) = []) ∧
    (values.response = some .branch_name_change →
      optStrFalsy values.updatedBranchName = true →
      onSubmit (some bank) values ps =
        .rejected "Updated branch name is required for branch name change" ∧
      submitPuts (onSubmit (some bank) values ps) = []) ∧
    (values.response = some .bank_shift → optStrFalsy values.updateAddress = true →
      onSubmit (some bank) values ps =
        .rejected "Updated address is required for bank shift" ∧
      submitPuts (onSubmit (some bank) values ps) = []) := by
  refine ⟨?_, ?_, ?_⟩
  · intro h1 h2
    have hA : ¬ (values.phoneResponse ∈ successfulResponses ∧ values.response = none) := by
      rintro ⟨-, hn⟩
      rw [h1] at hn
      cases hn
    have hrej : onSubmit (some bank) values ps =
        .rejected "Updated address is required for address change" := by
      simp only [onSubmit]
      rw [if_neg hA, if_pos ⟨h1, h2⟩]
    exact ⟨hrej, by rw [hrej]; rfl⟩
  · intro h1 h2
    have hA : ¬ (values.phoneResponse ∈ successfulResponses ∧ values.response = none) := by
      rintro ⟨-, hn⟩
      rw [h1] at hn
      cases hn
    have hB : ¬ (values.response = some .address_change ∧
        optStrFalsy values.updateAddress = true) := by
      rintro ⟨he, -⟩
      rw [h1] at he
      simp at he
    have hrej : onSubmit (some bank) values ps =
        .rejected "Updated branch name is required for branch name change" := by
      simp only [onSubmit]
      rw [if_neg hA, if_neg hB, if_pos ⟨h1, h2⟩]
    exact ⟨hrej, by rw [hrej]; rfl⟩
  · intro h1 h2
    have hA : ¬ (values.phoneResponse ∈ successfulResponses ∧ values.response = none) := by
      rintro ⟨-, hn⟩
      rw [h1] at hn
      cases hn
    have hB : ¬ (values.response = some .address_change ∧
        optStrFalsy values.updateAddress = true) := by
      rintro ⟨he, -⟩
      rw [h1] at he
      simp at he
    have hC : ¬ (values.response = some .branch_name_change ∧
        optStrFalsy values.updatedBranchName = true) := by
      rintro ⟨he, -⟩
      rw [h1] at he
      simp at he
    have hrej : onSubmit (some bank) values ps =
        .rejected "Updated address is required for bank shift" := by
      simp only [onSubmit]
      rw [if_neg hA, if_neg hB, if_neg hC, if_pos ⟨h1, h2⟩]
    exact ⟨hrej, by rw [hrej]; rfl⟩

/-- Claim C6, witness at a concrete address_change draft with no address. -/
theorem c6_conditional_field_rejections_witness :
    onSubmit (some bankEx) valuesAddrMissing true =
      .rejected "Updated address is required for address change" ∧
    submitPuts (onSubmit (some bankEx) valuesAddrMissing true) = [] :=
  (c6_conditional_field_rejections valuesAddrMissing bankEx true).1 rfl rfl

/-- Claim C7, counterexample.  The claim states that every cancel on a held
record transitions to awaiting-assignment, never leaving a stale record
displayed.  On the concrete record with a failing reset PUT, the PUT is
attempted with the reset body but the record stays held, no next fetch is
triggered and the cancel-failure error is surfaced. -/
theorem c7_cancel_failure_counterexample :
    (handleCancel (some bankEx) false).puts = [⟨1, cancelBody bankEx⟩] ∧
    (handleCancel (some bankEx) false).currentBankAfter = some bankEx ∧
    (handleCancel (some bankEx) false).fetchTriggered = false ∧
    (handleCancel (some bankEx) false).error =
      some "Failed to cancel assignment. Please try again." :=
  ⟨rfl, rfl, rfl, rfl⟩

/-- Claim C7, amended.  Every cancel on a held record attempts the reset PUT
whose body is the held record with userName and all outcome fields reset to
empty strings; when the PUT succeeds the record is cleared, the draft reset
and the next assignment fetched, and when it fails the record stays held with
the cancel-failure error surfaced. -/
theorem c7_cancel_reset_and_transition (bank : Bank) :
    handleCancel (some bank) true =
      ⟨[⟨bank.id, cancelBody bank⟩], none, true, true, none⟩ ∧
    handleCancel (some bank) false =
      ⟨[⟨bank.id, cancelBody bank⟩], some bank, false, false,
        some "Failed to cancel assignment. Please try again."⟩ :=
  ⟨rfl, rfl⟩

/-- Claim C8: the body of a successful submission PUT keeps every descriptive
field (bankName, ifscCode, branchName, address) and the identity fields of
the original record unchanged, and carries the validated outcome fields from
the draft. -/
theorem c8_descriptive_fields_preserved (bank : Bank) (values : FormValues) (ps : Bool)
    (put : PutCall) (hs : onSubmit (some bank) values ps = .submitted put) :
    put.id = bank.id ∧
    put.body.bankName = bank.bankName ∧
    put.body.ifscCode = bank.ifscCode ∧
    put.body.branchName = bank.branchName ∧
    put.body.address = bank.address ∧
    put.body.id = bank.id ∧
    put.body.ufi = bank.ufi ∧
    put.body.phoneNumber = values.phoneNumber ∧
    put.body.phoneResponse = values.phoneResponse.toStr ∧
    put.body.remarks = values.remarks ∧
    (∀ r, values.response = some r → put.body.response = r.toStr) ∧
    (∀ s, values.updateAddress = some s → put.body.updateAddress = s) ∧
    (∀ s, values.updatedBranchName = some s → put.body.updatedBranchName = s) := by
  obtain ⟨-, rfl⟩ := onSubmit_submitted_eq bank values ps put hs
  refine ⟨rfl, rfl, rfl, rfl, rfl, rfl, rfl, rfl, rfl, rfl, ?_, ?_, ?_⟩
  · intro r hr
    simp [submitBody, hr]
  · intro s h
    simp [submitBody, h]
  · intro s h
    simp [submitBody, h]

/-- Claim C8, witness at a concrete record and valid address-change draft. -/
theorem c8_descriptive_fields_preserved_witness :
    (⟨bankEx.id, submitBody bankEx valuesFull⟩ : PutCall).id = bankEx.id ∧
    (⟨bankEx.id, submitBody bankEx valuesFull⟩ : PutCall).body.bankName = bankEx.bankName ∧
    (⟨bankEx.id, submitBody bankEx valuesFull⟩ : PutCall).body.ifscCode = bankEx.ifscCode ∧
    (⟨bankEx.id, submitBody bankEx valuesFull⟩ : PutCall).body.branchName = bankEx.branchName ∧
    (⟨bankEx.id, submitBody bankEx valuesFull⟩ : PutCall).body.address = bankEx.address ∧
    (⟨bankEx.id, submitBody bankEx valuesFull⟩ : PutCall).body.id = bankEx.id ∧
    (⟨bankEx.id, submitBody bankEx valuesFull⟩ : PutCall).body.ufi = bankEx.ufi ∧
    (⟨bankEx.id, submitBody bankEx valuesFull⟩ : PutCall).body.phoneNumber =
      valuesFull.phoneNumber ∧
    (⟨bankEx.id, submitBody bankEx valuesFull⟩ : PutCall).body.phoneResponse =
      valuesFull.phoneResponse.toStr ∧
    (⟨bankEx.id, submitBody bankEx valuesFull⟩ : PutCall).body.remarks =
      valuesFull.remarks ∧
    (∀ r, valuesFull.response = some r →
      (⟨bankEx.id, submitBody bankEx valuesFull⟩ : PutCall).body.response = r.toStr) ∧
    (∀ s, valuesFull.updateAddress = some s →
      (⟨bankEx.id, submitBody bankEx valuesFull⟩ : PutCall).body.updateAddress = s) ∧
    (∀ s, valuesFull.updatedBranchName = some s →
      (⟨bankEx.id, submitBody bankEx valuesFull⟩ : PutCall).body.updatedBranchName = s) :=
  c8_descriptive_fields_preserved bankEx valuesFull true
    ⟨bankEx.id, submitBody bankEx valuesFull⟩ (by decide)

/-- Claim C9: the phone number validator rejects the leading-zero input and
accepts the plain ten-digit input, and a string passes the chain exactly when
it is 10 to 15 characters, all digits, and does not start with the digit 0. -/
theorem c9_phone_validator :
    phoneNumberValid "09876543210" = false ∧
    phoneNumberValid "9876543210" = true ∧
    (∀ s : String, phoneNumberValid s = true ↔
      (10 ≤ s.length ∧ s.length ≤ 15 ∧ (∀ c ∈ s.data, c.isDigit = true) ∧
        s.data.head? ≠ some '0')) := by
  refine ⟨by decide, by decide, fun s => ?_⟩
  unfold phoneNumberValid phoneMinRule phoneMaxRule phoneDigitsRule phoneNoLeadingZeroRule
  simp only [Bool.and_eq_true, decide_eq_true_eq, List.all_eq_true, Bool.not_eq_true',
    beq_eq_false_iff_ne, ne_eq]
  constructor
  · rintro ⟨⟨⟨h10, h15⟩, h0, hall⟩, hns⟩
    exact ⟨h10, h15, hall, hns⟩
  · rintro ⟨h10, h15, hall, hns⟩
    exact ⟨⟨⟨h10, h15⟩, by omega, hall⟩, hns⟩

/-- Claim C10: for any random draw in the unit interval, the floor index lies
below the length of the non-empty filtered list, the indexed access yields a
defined record, and the selector never reaches the undefined-access branch. -/
theorem c10_random_index_in_bounds (q : ℚ) (hq0 : 0 ≤ q) (hq1 : q < 1) :
    (∀ n : Nat, 0 < n → randomIndex q n < n) ∧
    (∀ banks : List Bank, banks.filter isUnassigned ≠ [] →
      (selectedBank banks q).isSome = true) ∧
    (∀ (banks : List Bank) (userName : String) (ps : Bool),
      fetchUnassignedBank banks userName q ps ≠ none) := by
  refine ⟨fun n hn => randomIndex_lt q n hq0 hq1 hn,
    fun banks hne => selectedBank_isSome banks q hq0 hq1 hne, ?_⟩
  intro banks userName ps
  by_cases hemp : banks.filter isUnassigned = []
  · rw [fetchUnassignedBank_empty banks userName q ps hemp]
    simp
  · rcases selectedBank_exists banks q hq0 hq1 hemp with ⟨b, hb, -, -⟩
    rw [fetchUnassignedBank_of_selected banks userName q ps b hb]
    simp

/-- Claim C10, witness at the draw one half on concrete inputs. -/
theorem c10_random_index_in_bounds_witness :
    randomIndex (1/2 : ℚ) 3 < 3 ∧ (selectedBank [bankEx] (1/2 : ℚ)).isSome = true ∧
    fetchUnassignedBank [bankEx] "Alice" (1/2 : ℚ) true ≠ none :=
  ⟨(c10_random_index_in_bounds (1/2) (by norm_num) (by norm_num)).1 3 (by norm_num),
   (c10_random_index_in_bounds (1/2) (by norm_num) (by norm_num)).2.1 [bankEx] (by decide),
   (c10_random_index_in_bounds (1/2) (by norm_num) (by norm_num)).2.2 [bankEx] "Alice" true⟩

end BankVerification
